import Mathlib

/-!
Verification of the 2FA login core of `secure-2fa-app`.

Shallow embedding of `src/app.js`: the OTP registry (a JS `Map` keyed by
attempt key), the per-client session object, and the three request handlers
`POST /login`, `POST /verify-otp`, `POST /logout`, plus the periodic cleanup
sweep.  Time is modelled as `Nat` milliseconds; within a single request all
`Date.now()` samples are modelled as one instant `now`.  Strings are Lean
`String`s; the JS regex `^\d{4}$` is modelled as "length 4 and every
character a decimal digit".
-/

namespace TwoFA

/-- One entry of `otpStore` (`app.js`: the object stored by
`otpStore.set(otpKey, { otp, expires, username })`). -/
structure OTPRecord where
  otp : String
  expires : Nat
  username : String
deriving DecidableEq, Repr

/-- The `otpStore` `Map`, modelled as an insertion-ordered association list.
All access goes through `mapGet` / `mapSet` / `mapDelete`, which model the JS
`Map` primitives `get` / `set` / `delete`. -/
abbrev Registry := List (String × OTPRecord)

/-- JS `Map.prototype.get`: the value stored at `k`, if any. -/
def mapGet (m : Registry) (k : String) : Option OTPRecord :=
  (m.find? (fun p => p.1 == k)).map Prod.snd

/-- JS `Map.prototype.set`: overwrite the value at `k` in place if the key
exists, otherwise append a new entry. -/
def mapSet (m : Registry) (k : String) (v : OTPRecord) : Registry :=
  if m.any (fun p => p.1 == k) then
    m.map (fun p => if p.1 == k then (k, v) else p)
  else
    m ++ [(k, v)]

/-- JS `Map.prototype.delete`: remove the entry at `k`. -/
def mapDelete (m : Registry) (k : String) : Registry :=
  m.filter (fun p => p.1 != k)

/-- The object stored in `req.session.pendingAuth` (`app.js`, POST /login):
`{ username, timestamp: Date.now() }`. -/
structure PendingAuth where
  username : String
  timestamp : Nat
deriving DecidableEq, Repr

/-- The session fields the core reads and writes (`req.session.*` in
`app.js`).  `none`/`false` models an absent or falsy field; `session.destroy`
yields `Session.destroyed` below. -/
structure Session where
  authenticated : Bool
  username : Option String
  pendingAuth : Option PendingAuth
  otpKey : Option String
  loginTime : Option Nat
deriving DecidableEq, Repr

/-- The fresh session a client observes after `req.session.destroy()`:
no field is set. -/
def Session.destroyed : Session :=
  { authenticated := false, username := none, pendingAuth := none,
    otpKey := none, loginTime := none }

/-- The spec's session phase, read off the stored fields the way the
handlers branch on them: `req.session.authenticated` gates `authenticated`,
`req.session.pendingAuth` gates `pendingSecondFactor`. -/
inductive Phase where
  | anonymous
  | pendingSecondFactor
  | authenticated
deriving DecidableEq, Repr

/-- Phase of a session, as observed by the handlers' guards. -/
def Session.phase (s : Session) : Phase :=
  if s.authenticated then .authenticated
  else if s.pendingAuth.isSome then .pendingSecondFactor
  else .anonymous

/-- The attempt key computed by POST /login:
`const otpKey = ` `${username}_${Date.now()}` (`app.js` line 168). -/
def attemptKey (username : String) (now : Nat) : String :=
  username ++ "_" ++ toString now

/-- The registry effect of a guard-passing POST /login (`app.js` lines
170-178): store `{ otp, expires: now + 60000, username }` under
`attemptKey username now` via `Map.set`. -/
def issue (store : Registry) (username otp : String) (now : Nat) : Registry :=
  mapSet store (attemptKey username now) ⟨otp, now + 60000, username⟩

/-- The JS password guard `/^\d{4}$/.test(password)`: the character sequence
is exactly four decimal digits. -/
def passwordFormatOk (p : String) : Bool :=
  p.length == 4 && p.data.all Char.isDigit

/-- Outcome of POST /login, one constructor per `res.render`/`res.redirect`
branch of the handler. -/
inductive LoginResult where
  | errorRequired        -- "Username and password are required"
  | errorUsernameLong    -- "Username must be less than 20 characters"
  | errorPasswordFormat  -- "Password must be exactly 4 digits"
  | redirectVerify       -- OTP sent, redirect to /verify-otp
  | errorDeliveryFailed  -- "Failed to send OTP. Please try again."
deriving DecidableEq, Repr

/-- POST /login (`app.js` lines 145-190).  `otp` is the value drawn by
`generateOTP()` (randomness passed in), `deliveryOk` the boolean result of
`sendOTPEmail`.  Note the handler sets `req.session.pendingAuth` and
`req.session.otpKey` and stores the OTP record *before* awaiting delivery,
and the delivery-failure branch renders an error without unsetting them. -/
def login (sess : Session) (store : Registry) (username password : String)
    (otp : String) (now : Nat) (deliveryOk : Bool) :
    LoginResult × Session × Registry :=
  if username.isEmpty || password.isEmpty then
    (.errorRequired, sess, store)
  else if 20 ≤ username.length then
    (.errorUsernameLong, sess, store)
  else if !passwordFormatOk password then
    (.errorPasswordFormat, sess, store)
  else
    let sess1 := { sess with pendingAuth := some ⟨username, now⟩,
                             otpKey := some (attemptKey username now) }
    let store1 := issue store username otp now
    if deliveryOk then
      (.redirectVerify, sess1, store1)
    else
      (.errorDeliveryFailed, sess1, store1)

/-- The spec's registry outcome vocabulary for code consumption. -/
inductive Outcome where
  | Valid
  | Expired
  | Mismatch
  | NotFound
deriving DecidableEq, Repr

/-- The registry-level effect of POST /verify-otp (`app.js` lines 207-235),
the spec's `consume(attemptKey, submittedCode)`: look the key up; absent →
`NotFound`; `now > expires` → delete, `Expired`; wrong code → `Mismatch`
with the record kept; otherwise delete, `Valid`. -/
def consume (store : Registry) (key code : String) (now : Nat) :
    Outcome × Registry :=
  match mapGet store key with
  | none => (.NotFound, store)
  | some r =>
    if r.expires < now then (.Expired, mapDelete store key)
    else if code ≠ r.otp then (.Mismatch, store)
    else (.Valid, mapDelete store key)

/-- Outcome of POST /verify-otp, one constructor per handler branch. -/
inductive VerifyResult where
  | redirectLogin      -- no pendingAuth or no otpKey in the session
  | errorNotFound      -- "OTP not found or expired"
  | errorExpired       -- "OTP has expired. Please login again."
  | errorInvalid       -- "Invalid OTP. Please try again."
  | redirectDashboard  -- authenticated, redirect to /dashboard
deriving DecidableEq, Repr

/-- POST /verify-otp (`app.js` lines 201-241).  Note the `NotFound` branch
renders an error but clears nothing, while the expired branch deletes the
record and nulls `pendingAuth`/`otpKey`. -/
def verifyOtp (sess : Session) (store : Registry) (otp : String)
    (now : Nat) : VerifyResult × Session × Registry :=
  match sess.pendingAuth, sess.otpKey with
  | some pa, some key =>
    match mapGet store key with
    | none => (.errorNotFound, sess, store)
    | some r =>
      if r.expires < now then
        (.errorExpired,
         { sess with pendingAuth := none, otpKey := none },
         mapDelete store key)
      else if otp ≠ r.otp then
        (.errorInvalid, sess, store)
      else
        (.redirectDashboard,
         { authenticated := true, username := some pa.username,
           pendingAuth := none, otpKey := none, loginTime := some now },
         mapDelete store key)
  | _, _ => (.redirectLogin, sess, store)

/-- POST /logout (`app.js` lines 252-262): `req.session.destroy` and a
redirect; the OTP store is not touched. -/
def logout (sess : Session) (store : Registry) : Session × Registry :=
  (Session.destroyed, store)

/-- The periodic cleanup (`app.js` lines 264-277): delete every entry with
`now > value.expires`. -/
def sweep (store : Registry) (now : Nat) : Registry :=
  store.filter (fun p => !(p.2.expires < now))

/-- The spec's session-state invariant: `otpKey` (the pending attempt key) is
populated iff the phase is `pendingSecondFactor`, and `username` (the
authenticated username) is populated iff the phase is `authenticated`. -/
def invariantOk (s : Session) : Bool :=
  (s.otpKey.isSome == decide (s.phase = Phase.pendingSecondFactor)) &&
  (s.username.isSome == decide (s.phase = Phase.authenticated))

/-- Whether a login result is one of the three format-guard rejections. -/
def LoginResult.isGuardError : LoginResult → Bool
  | .errorRequired => true
  | .errorUsernameLong => true
  | .errorPasswordFormat => true
  | _ => false

/-! ## Shared lemmas about the `Map` model -/

theorem isEmpty_eq_false_iff (s : String) : s.isEmpty = false ↔ s ≠ "" := by
  constructor
  · intro h e
    subst e
    exact absurd h (by decide)
  · intro h
    cases he : s.isEmpty
    · rfl
    · exact absurd ((String.isEmpty_iff s).mp he) h

theorem mapGet_mapDelete_self (m : Registry) (k : String) :
    mapGet (mapDelete m k) k = none := by
  have h : (mapDelete m k).find? (fun p => p.1 == k) = none := by
    rw [List.find?_eq_none]
    intro p hp
    have := (List.mem_filter.mp hp).2
    simp only [bne_iff_ne, ne_eq, decide_eq_true_eq] at this
    simp [this]
  simp [mapGet, h]

theorem mapGet_eq_none_iff_not_any (m : Registry) (k : String) :
    mapGet m k = none ↔ m.any (fun p => p.1 == k) = false := by
  constructor
  · intro h
    cases ha : m.any (fun p => p.1 == k)
    · rfl
    · obtain ⟨p, hp, hpk⟩ := List.any_eq_true.mp ha
      have hfind : (m.find? (fun q => q.1 == k)).isSome = true :=
        List.find?_isSome.mpr ⟨p, hp, hpk⟩
      simp only [mapGet] at h
      rw [Option.map_eq_none'] at h
      rw [h] at hfind
      exact absurd hfind (by decide)
  · intro h
    have hfind : m.find? (fun p => p.1 == k) = none := by
      rw [List.find?_eq_none]
      intro p hp hpk
      have hany : m.any (fun q => q.1 == k) = true := List.any_eq_true.mpr ⟨p, hp, hpk⟩
      rw [h] at hany
      exact absurd hany (by decide)
    simp [mapGet, hfind]

theorem find?_map_replace (m : Registry) (k : String) (v : OTPRecord)
    (ha : m.any (fun p => p.1 == k) = true) :
    (m.map (fun p => if p.1 == k then (k, v) else p)).find? (fun p => p.1 == k) =
      some (k, v) := by
  induction m with
  | nil => exact absurd ha (by simp)
  | cons hd tl ih =>
    by_cases hk : hd.1 = k
    · simp [List.find?_cons, hk]
    · have hk' : (hd.1 == k) = false := by simp [hk]
      simp only [List.any_cons, Bool.or_eq_true, hk'] at ha
      rcases ha with h1 | h2
      · exact absurd h1 (by decide)
      · simp only [List.map_cons, hk', Bool.false_eq_true, if_false]
        rw [List.find?_cons_of_neg _ (by simp [hk])]
        exact ih h2

theorem mapGet_mapSet_self (m : Registry) (k : String) (v : OTPRecord) :
    mapGet (mapSet m k v) k = some v := by
  unfold mapSet
  cases ha : m.any (fun p => p.1 == k) with
  | false =>
    have h1 : m.find? (fun p => p.1 == k) = none := by
      rw [List.find?_eq_none]
      intro p hp hpk
      have hany : m.any (fun q => q.1 == k) = true := List.any_eq_true.mpr ⟨p, hp, hpk⟩
      rw [ha] at hany
      exact absurd hany (by decide)
    simp [mapGet, List.find?_append, h1]
  | true =>
    simp only [if_true]
    unfold mapGet
    rw [find?_map_replace m k v ha]
    rfl

theorem length_mapSet_of_mem (m : Registry) (k : String) (v v' : OTPRecord)
    (h : mapGet m k = some v') : (mapSet m k v).length = m.length := by
  have ha : m.any (fun p => p.1 == k) = true := by
    cases hcase : m.any (fun p => p.1 == k)
    · rw [(mapGet_eq_none_iff_not_any m k).mpr hcase] at h
      exact absurd h (by simp)
    · rfl
  simp [mapSet, ha]

theorem length_mapSet_of_not_mem (m : Registry) (k : String) (v : OTPRecord)
    (h : mapGet m k = none) : (mapSet m k v).length = m.length + 1 := by
  have ha := (mapGet_eq_none_iff_not_any m k).mp h
  simp [mapSet, ha]

/-! ## Claim theorems -/

/-- C1: codes are single-use.  When `consume` on attempt key `k` returns
`Valid`, the record for `k` is deleted from the resulting registry, so a
second `consume` of `k` — with any code, at any time — returns `NotFound`. -/
theorem consume_single_use (store store' : Registry) (k c c2 : String)
    (now now2 : Nat) (h : consume store k c now = (.Valid, store')) :
    mapGet store' k = none ∧ consume store' k c2 now2 = (.NotFound, store') := by
  cases hg : mapGet store k with
  | none =>
    simp only [consume, hg] at h
    exact absurd h (by simp)
  | some r =>
    simp only [consume, hg] at h
    by_cases h1 : r.expires < now
    · rw [if_pos h1] at h
      exact absurd h (by simp)
    · rw [if_neg h1] at h
      by_cases h2 : c ≠ r.otp
      · rw [if_pos h2] at h
        exact absurd h (by simp)
      · rw [if_neg h2] at h
        have hs : store' = mapDelete store k := (Prod.mk.injEq _ _ _ _).mp h |>.2.symm
        subst hs
        have hnone := mapGet_mapDelete_self store k
        exact ⟨hnone, by simp [consume, hnone]⟩

/-- Witness for C1: a concrete one-record registry whose code is consumed at
t = 30 ms; the follow-up call finds nothing. -/
theorem consume_single_use_witness :
    mapGet ([] : Registry) "alice_5" = none ∧
    consume ([] : Registry) "alice_5" "1234" 70 = (.NotFound, []) :=
  consume_single_use [("alice_5", ⟨"1234", 60005, "alice"⟩)] [] "alice_5"
    "1234" "1234" 30 70 (by decide)

/-- C4 counterexample: at `now` exactly equal to `expiresAt` (here both 100)
the handler's check `now > expires` is false, so a matching code yields
`Valid` — not `Expired` as the claim requires for every `t ≥ expiresAt`. -/
theorem consume_at_exact_expiry_valid :
    consume [("k", ⟨"1234", 100, "u"⟩)] "k" "1234" 100 = (.Valid, []) := by
  decide

/-- C4 amended: if `consume` returns `Valid` at time `now` then
`now ≤ expiresAt` (equality allowed), and for every call strictly after
expiry (`now > expiresAt`) it returns `Expired` and deletes the record,
regardless of the submitted code. -/
theorem consume_expiry_amended (store : Registry) (k c : String) (now : Nat) :
    ((consume store k c now).1 = .Valid →
      ∃ r, mapGet store k = some r ∧ now ≤ r.expires) ∧
    (∀ r, mapGet store k = some r → r.expires < now →
      consume store k c now = (.Expired, mapDelete store k)) := by
  constructor
  · intro h
    cases hg : mapGet store k with
    | none =>
      simp only [consume, hg] at h
      exact absurd h (by simp)
    | some r =>
      simp only [consume, hg] at h
      by_cases h1 : r.expires < now
      · rw [if_pos h1] at h
        exact absurd h (by simp)
      · exact ⟨r, rfl, Nat.le_of_not_lt h1⟩
  · intro r hr hexp
    simp [consume, hr, hexp]

/-- Witness for C4 (amended): one millisecond past expiry a wrong code still
produces `Expired` and the record is dropped. -/
theorem consume_expiry_amended_witness :
    consume [("k", ⟨"1234", 100, "u"⟩)] "k" "9999" 101 =
      (.Expired, mapDelete [("k", ⟨"1234", 100, "u"⟩)] "k") :=
  (consume_expiry_amended [("k", ⟨"1234", 100, "u"⟩)] "k" "9999" 101).2
    ⟨"1234", 100, "u"⟩ (by decide) (by decide)

/-- C6: mismatch is non-destructive.  For a live, unexpired record holding
code `r.otp` and a submitted code `c' ≠ r.otp`, `consume` returns `Mismatch`
leaving the registry unchanged, the full handler leaves the session's
pending state untouched, and a later `consume` with the correct code before
`expiresAt` still returns `Valid`. -/
theorem consume_mismatch_nondestructive (sess : Session) (store : Registry)
    (pa : PendingAuth) (k c' : String) (r : OTPRecord) (now now2 : Nat)
    (hget : mapGet store k = some r) (hlive : ¬ r.expires < now)
    (hne : c' ≠ r.otp)
    (hpa : sess.pendingAuth = some pa) (hk : sess.otpKey = some k)
    (h2 : now2 < r.expires) :
    consume store k c' now = (.Mismatch, store) ∧
    verifyOtp sess store c' now = (.errorInvalid, sess, store) ∧
    consume store k r.otp now2 = (.Valid, mapDelete store k) := by
  refine ⟨?_, ?_, ?_⟩
  · simp [consume, hget, hlive, hne]
  · simp [verifyOtp, hpa, hk, hget, hlive, hne]
  · simp [consume, hget, Nat.not_lt.mpr (Nat.le_of_lt h2)]

/-- Witness for C6: wrong code `"2222"` against stored `"1111"` at t = 10 ms
is a pure no-op; the correct code at t = 20 ms still validates. -/
theorem consume_mismatch_nondestructive_witness :
    consume [("u_0", ⟨"1111", 60000, "u"⟩)] "u_0" "2222" 10 =
      (.Mismatch, [("u_0", ⟨"1111", 60000, "u"⟩)]) ∧
    verifyOtp
      { authenticated := false, username := none,
        pendingAuth := some ⟨"u", 0⟩, otpKey := some "u_0", loginTime := none }
      [("u_0", ⟨"1111", 60000, "u"⟩)] "2222" 10 =
      (.errorInvalid,
       { authenticated := false, username := none,
         pendingAuth := some ⟨"u", 0⟩, otpKey := some "u_0", loginTime := none },
       [("u_0", ⟨"1111", 60000, "u"⟩)]) ∧
    consume [("u_0", ⟨"1111", 60000, "u"⟩)] "u_0" "1111" 20 =
      (.Valid, mapDelete [("u_0", ⟨"1111", 60000, "u"⟩)] "u_0") :=
  consume_mismatch_nondestructive
    { authenticated := false, username := none,
      pendingAuth := some ⟨"u", 0⟩, otpKey := some "u_0", loginTime := none }
    [("u_0", ⟨"1111", 60000, "u"⟩)] ⟨"u", 0⟩ "u_0" "2222" ⟨"1111", 60000, "u"⟩
    10 20 (by decide) (by decide) (by decide) rfl rfl (by decide)

/-- C9: the sweep removes exactly the entries with `expiresAt < now` — an
entry with `expiresAt = now` survives — and sweeping twice at the same
instant removes nothing further. -/
theorem sweep_exact_idempotent (store : Registry) (now : Nat) :
    (∀ p : String × OTPRecord,
      p ∈ sweep store now ↔ p ∈ store ∧ ¬ p.2.expires < now) ∧
    sweep (sweep store now) now = sweep store now := by
  constructor
  · intro p
    simp [sweep, List.mem_filter]
  · unfold sweep
    rw [List.filter_filter]
    simp

/-- Witness for C9: a record expiring exactly at the sweep instant survives,
and the double sweep equals the single sweep. -/
theorem sweep_exact_idempotent_witness :
    ("k", (⟨"1", 100, "u"⟩ : OTPRecord)) ∈
      sweep [("k", (⟨"1", 100, "u"⟩ : OTPRecord))] 100 ∧
    sweep (sweep [("k", (⟨"1", 100, "u"⟩ : OTPRecord))] 100) 100 =
      sweep [("k", (⟨"1", 100, "u"⟩ : OTPRecord))] 100 :=
  ⟨((sweep_exact_idempotent [("k", ⟨"1", 100, "u"⟩)] 100).1 _).mpr
      ⟨by simp, by decide⟩,
   (sweep_exact_idempotent [("k", ⟨"1", 100, "u"⟩)] 100).2⟩

/-- C2 counterexample: with valid credentials and failed delivery the
handler renders a delivery error, but `pendingAuth` and `otpKey` stay set —
the session is in `pendingSecondFactor`, not back in `Anonymous` — and the
issued record is still in the registry. -/
theorem login_delivery_failure_keeps_pending :
    (login Session.destroyed [] "alice" "1234" "9999" 5 false).1 =
      LoginResult.errorDeliveryFailed ∧
    (login Session.destroyed [] "alice" "1234" "9999" 5 false).2.1.pendingAuth =
      some ⟨"alice", 5⟩ ∧
    (login Session.destroyed [] "alice" "1234" "9999" 5 false).2.1.otpKey =
      some "alice_5" ∧
    (login Session.destroyed [] "alice" "1234" "9999" 5 false).2.1.phase =
      Phase.pendingSecondFactor ∧
    mapGet (login Session.destroyed [] "alice" "1234" "9999" 5 false).2.2
      "alice_5" = some ⟨"9999", 60005, "alice"⟩ := by
  decide

/-- C2 amended: for a guard-passing submission whose out-of-band delivery
fails, a delivery error is surfaced, but the pending username and pending
attempt key set during the submission are NOT discarded — the session keeps
both (it does not return to `Anonymous`) and the issued OTP record stays in
the registry. -/
theorem login_delivery_failure_amended (sess : Session) (store : Registry)
    (u p otp : String) (now : Nat)
    (hu : u ≠ "") (hlen : u.length < 20) (hp : passwordFormatOk p = true) :
    login sess store u p otp now false =
      (.errorDeliveryFailed,
       { sess with pendingAuth := some ⟨u, now⟩,
                   otpKey := some (attemptKey u now) },
       issue store u otp now) ∧
    mapGet (issue store u otp now) (attemptKey u now) =
      some ⟨otp, now + 60000, u⟩ := by
  have hue : u.isEmpty = false := (isEmpty_eq_false_iff u).mpr hu
  have hpe : p.isEmpty = false := by
    refine (isEmpty_eq_false_iff p).mpr ?_
    intro e
    subst e
    exact absurd hp (by decide)
  refine ⟨?_, mapGet_mapSet_self store (attemptKey u now) _⟩
  simp [login, hue, hpe, Nat.not_le.mpr hlen, hp, issue]

/-- Witness for C2 (amended) at concrete credentials. -/
theorem login_delivery_failure_amended_witness :
    (login Session.destroyed [] "bob" "4321" "1111" 7 false =
      (.errorDeliveryFailed,
       { Session.destroyed with pendingAuth := some ⟨"bob", 7⟩,
                                otpKey := some (attemptKey "bob" 7) },
       issue [] "bob" "1111" 7) ∧
     mapGet (issue [] "bob" "1111" 7) (attemptKey "bob" 7) =
       some ⟨"1111", 60007, "bob"⟩) :=
  login_delivery_failure_amended Session.destroyed [] "bob" "4321" "1111" 7
    (by decide) (by decide) (by decide)

/-- C3 counterexample: a pending session whose attempt key has no registry
record gets the "OTP not found" error, but the handler clears nothing — the
session keeps `pendingAuth` and `otpKey` and remains in
`pendingSecondFactor` instead of returning to `Anonymous`. -/
theorem verifyOtp_notfound_keeps_pending :
    verifyOtp
      { authenticated := false, username := none,
        pendingAuth := some ⟨"alice", 0⟩, otpKey := some "alice_0",
        loginTime := none } [] "1234" 10 =
      (.errorNotFound,
       { authenticated := false, username := none,
         pendingAuth := some ⟨"alice", 0⟩, otpKey := some "alice_0",
         loginTime := none }, []) ∧
    ({ authenticated := false, username := none,
       pendingAuth := some ⟨"alice", 0⟩, otpKey := some "alice_0",
       loginTime := none } : Session).phase = Phase.pendingSecondFactor := by
  decide

/-- C3 amended: `NotFound` is NOT treated like `Expired`.  When the pending
session's attempt key has no registry record the handler surfaces an error
and leaves session and registry exactly as they were, whereas the expired
branch clears the pending fields and deletes the record. -/
theorem verifyOtp_notfound_amended (sess : Session) (store store2 : Registry)
    (c : String) (now : Nat) (pa : PendingAuth) (k : String) (r : OTPRecord)
    (hpa : sess.pendingAuth = some pa) (hk : sess.otpKey = some k)
    (hmiss : mapGet store k = none)
    (hhit : mapGet store2 k = some r) (hexp : r.expires < now) :
    verifyOtp sess store c now = (.errorNotFound, sess, store) ∧
    verifyOtp sess store2 c now =
      (.errorExpired, { sess with pendingAuth := none, otpKey := none },
       mapDelete store2 k) := by
  constructor
  · simp [verifyOtp, hpa, hk, hmiss]
  · simp [verifyOtp, hpa, hk, hhit, hexp]

/-- Witness for C3 (amended): empty registry vs. a registry holding an
already-expired record for the same pending session. -/
theorem verifyOtp_notfound_amended_witness :
    verifyOtp
      { authenticated := false, username := none,
        pendingAuth := some ⟨"u", 0⟩, otpKey := some "u_0", loginTime := none }
      [] "1234" 70000 =
      (.errorNotFound,
       { authenticated := false, username := none,
         pendingAuth := some ⟨"u", 0⟩, otpKey := some "u_0",
         loginTime := none }, []) ∧
    verifyOtp
      { authenticated := false, username := none,
        pendingAuth := some ⟨"u", 0⟩, otpKey := some "u_0", loginTime := none }
      [("u_0", ⟨"1111", 60000, "u"⟩)] "1234" 70000 =
      (.errorExpired,
       { authenticated := false, username := none, pendingAuth := none,
         otpKey := none, loginTime := none },
       mapDelete [("u_0", ⟨"1111", 60000, "u"⟩)] "u_0") :=
  verifyOtp_notfound_amended
    { authenticated := false, username := none,
      pendingAuth := some ⟨"u", 0⟩, otpKey := some "u_0", loginTime := none }
    [] [("u_0", ⟨"1111", 60000, "u"⟩)] "1234" 70000 ⟨"u", 0⟩ "u_0"
    ⟨"1111", 60000, "u"⟩ rfl rfl rfl (by decide) (by decide)

/-- C5 counterexample: the authenticated state reached by a full login flow
satisfies the invariant, but submitting fresh credentials from it (POST
/login performs no authentication check) yields a state with BOTH the
authenticated username and a pending attempt key populated, violating the
invariant. -/
theorem login_while_authenticated_breaks_invariant :
    (verifyOtp (login Session.destroyed [] "alice" "1234" "9999" 0 true).2.1
        (login Session.destroyed [] "alice" "1234" "9999" 0 true).2.2
        "9999" 50).2.1 =
      { authenticated := true, username := some "alice", pendingAuth := none,
        otpKey := none, loginTime := some 50 } ∧
    invariantOk
      { authenticated := true, username := some "alice", pendingAuth := none,
        otpKey := none, loginTime := some 50 } = true ∧
    (login
      { authenticated := true, username := some "alice", pendingAuth := none,
        otpKey := none, loginTime := some 50 }
      [] "alice" "1234" "8888" 60 true).2.1 =
      { authenticated := true, username := some "alice",
        pendingAuth := some ⟨"alice", 60⟩, otpKey := some "alice_60",
        loginTime := some 50 } ∧
    invariantOk
      { authenticated := true, username := some "alice",
        pendingAuth := some ⟨"alice", 60⟩, otpKey := some "alice_60",
        loginTime := some 50 } = false := by
  decide

/-- C5 amended: from any state satisfying the invariant, submitCode and
logout preserve it, and submitCredentials preserves it provided the session
is not authenticated; submitting credentials from an Authenticated session
is the one violation (shown by the counterexample). -/
theorem invariant_preservation_amended (sess : Session) (store : Registry)
    (h : invariantOk sess = true) :
    (∀ c now, invariantOk (verifyOtp sess store c now).2.1 = true) ∧
    invariantOk (logout sess store).1 = true ∧
    (sess.authenticated = false →
      ∀ u p otp now d, invariantOk (login sess store u p otp now d).2.1 = true) := by
  obtain ⟨auth, un, pa, ok, lt⟩ := sess
  refine ⟨?_, show invariantOk Session.destroyed = true by decide, ?_⟩
  · intro c now
    cases auth with
    | false =>
      cases pa with
      | none =>
        cases ok with
        | none => simpa [verifyOtp] using h
        | some k0 => simp [invariantOk, Session.phase] at h
      | some pa0 =>
        cases ok with
        | none => simp [invariantOk, Session.phase] at h
        | some k0 =>
          have hun : un = none := by
            cases un with
            | none => rfl
            | some x => simp [invariantOk, Session.phase] at h
          subst hun
          cases hget : mapGet store k0 with
          | none => simpa [verifyOtp, hget] using h
          | some r =>
            by_cases hexp : r.expires < now
            · simp [verifyOtp, hget, hexp, invariantOk, Session.phase]
            · by_cases hne : c ≠ r.otp
              · simpa [verifyOtp, hget, hexp, hne] using h
              · simp [verifyOtp, hget, hexp, hne, invariantOk, Session.phase]
    | true =>
      cases pa with
      | none =>
        cases ok with
        | none => simpa [verifyOtp] using h
        | some k0 => simp [invariantOk, Session.phase] at h
      | some pa0 =>
        cases ok with
        | none => simpa [verifyOtp] using h
        | some k0 => simp [invariantOk, Session.phase] at h
  · intro hauth u p otp now d
    have hauth' : auth = false := hauth
    subst hauth'
    have hun : un = none := by
      cases un with
      | none => rfl
      | some x => cases pa <;> simp [invariantOk, Session.phase] at h
    subst hun
    cases h1 : (u.isEmpty || p.isEmpty) with
    | true => simpa [login, h1] using h
    | false =>
      by_cases h2 : 20 ≤ u.length
      · simpa [login, h1, h2] using h
      · cases h3 : passwordFormatOk p with
        | false => simpa [login, h1, h2, h3] using h
        | true => cases d <;> simp [login, h1, h2, h3, invariantOk, Session.phase]

/-- Witness for C5 (amended) on a fresh anonymous session. -/
theorem invariant_preservation_amended_witness :
    invariantOk (verifyOtp Session.destroyed [] "1" 0).2.1 = true ∧
    invariantOk (logout Session.destroyed []).1 = true ∧
    invariantOk (login Session.destroyed [] "alice" "1234" "9" 3 true).2.1 = true :=
  ⟨(invariant_preservation_amended Session.destroyed [] (by decide)).1 "1" 0,
   (invariant_preservation_amended Session.destroyed [] (by decide)).2.1,
   (invariant_preservation_amended Session.destroyed [] (by decide)).2.2 rfl
     "alice" "1234" "9" 3 true⟩

/-- C7: the login format guard accepts exactly the submissions whose
username is non-empty and shorter than 20 characters and whose password is
non-empty and exactly 4 decimal digits; on any guard failure the handler
leaves the session and the registry untouched — no OTP record is created. -/
theorem login_guard_characterization (sess : Session) (store : Registry)
    (u p otp : String) (now : Nat) (d : Bool) :
    ((login sess store u p otp now d).1.isGuardError = false ↔
      (u ≠ "" ∧ u.length < 20 ∧ p ≠ "" ∧ p.length = 4 ∧
        p.data.all Char.isDigit = true)) ∧
    ((login sess store u p otp now d).1.isGuardError = true →
      (login sess store u p otp now d).2.1 = sess ∧
      (login sess store u p otp now d).2.2 = store) := by
  cases h1 : (u.isEmpty || p.isEmpty) with
  | true =>
    have hres : login sess store u p otp now d = (.errorRequired, sess, store) := by
      simp [login, h1]
    rw [hres]
    constructor
    · constructor
      · intro hf
        exact absurd hf (by simp [LoginResult.isGuardError])
      · rintro ⟨hu, -, hp, -, -⟩
        have h1' : u.isEmpty = true ∨ p.isEmpty = true := by simpa using h1
        rcases h1' with he | he
        · exact (hu ((String.isEmpty_iff u).mp he)).elim
        · exact (hp ((String.isEmpty_iff p).mp he)).elim
    · intro _
      exact ⟨rfl, rfl⟩
  | false =>
    have hu : u ≠ "" := by
      refine (isEmpty_eq_false_iff u).mp ?_
      cases hh : u.isEmpty
      · rfl
      · rw [hh] at h1
        exact absurd h1 (by simp)
    have hp0 : p ≠ "" := by
      refine (isEmpty_eq_false_iff p).mp ?_
      cases hh : p.isEmpty
      · rfl
      · rw [hh] at h1
        exact absurd h1 (by simp)
    by_cases h2 : 20 ≤ u.length
    · have hres : login sess store u p otp now d = (.errorUsernameLong, sess, store) := by
        simp [login, h1, h2]
      rw [hres]
      refine ⟨⟨fun hf => absurd hf (by simp [LoginResult.isGuardError]), ?_⟩,
        fun _ => ⟨rfl, rfl⟩⟩
      rintro ⟨-, hlen, -, -, -⟩
      exact absurd h2 (Nat.not_le.mpr hlen)
    · cases h3 : passwordFormatOk p with
      | false =>
        have hres : login sess store u p otp now d =
            (.errorPasswordFormat, sess, store) := by
          simp [login, h1, h2, h3]
        rw [hres]
        refine ⟨⟨fun hf => absurd hf (by simp [LoginResult.isGuardError]), ?_⟩,
          fun _ => ⟨rfl, rfl⟩⟩
        rintro ⟨-, -, -, hlen4, hdig⟩
        have hok : passwordFormatOk p = true := by
          simp [passwordFormatOk, hlen4, hdig]
        rw [h3] at hok
        exact absurd hok (by decide)
      | true =>
        have hparts := (Bool.and_eq_true _ _).mp h3
        have hlen4 : p.length = 4 := by simpa using hparts.1
        have hdig : p.data.all Char.isDigit = true := hparts.2
        have hres : (login sess store u p otp now d).1.isGuardError = false := by
          cases d <;> simp [login, h1, h2, h3, LoginResult.isGuardError]
        constructor
        · rw [hres]
          exact iff_of_true rfl ⟨hu, Nat.lt_of_not_le h2, hp0, hlen4, hdig⟩
        · rw [hres]
          intro hit
          exact absurd hit (by decide)

/-- Witness for C7: valid credentials pass the guard; an empty submission is
rejected with session and registry untouched. -/
theorem login_guard_characterization_witness :
    (login Session.destroyed [] "alice" "1234" "9999" 0 true).1.isGuardError =
      false ∧
    ((login Session.destroyed [] "" "" "9999" 0 true).2.1 = Session.destroyed ∧
     (login Session.destroyed [] "" "" "9999" 0 true).2.2 = []) :=
  ⟨(login_guard_characterization Session.destroyed [] "alice" "1234" "9999"
      0 true).1.mpr ⟨by decide, by decide, by decide, by decide, by decide⟩,
   (login_guard_characterization Session.destroyed [] "" "" "9999"
      0 true).2 (by decide)⟩

/-- C8 counterexample: two issue calls for `"alice"` in the same millisecond
(t = 5 ms) compute the same attempt key `"alice_5"`, so the second call
overwrites the first record instead of growing the registry — one entry
remains, holding the second code. -/
theorem issue_same_millisecond_collides :
    attemptKey "alice" 5 = "alice_5" ∧
    (issue (issue [] "alice" "1111" 5) "alice" "2222" 5).length = 1 ∧
    mapGet (issue (issue [] "alice" "1111" 5) "alice" "2222" 5) "alice_5" =
      some ⟨"2222", 60005, "alice"⟩ := by
  decide

/-- C8 amended: the attempt key is `username + "_" + now`, which is NOT
unique per call: a call whose key is absent from the registry grows it by
one entry, but a second call for the same username in the same millisecond
reuses the key and overwrites the earlier record, leaving the registry size
unchanged. -/
theorem issue_growth_amended (store : Registry) (u otp : String) (now : Nat) :
    attemptKey u now = u ++ "_" ++ toString now ∧
    (mapGet store (attemptKey u now) = none →
      (issue store u otp now).length = store.length + 1) ∧
    (∀ v, mapGet store (attemptKey u now) = some v →
      (issue store u otp now).length = store.length ∧
      mapGet (issue store u otp now) (attemptKey u now) =
        some ⟨otp, now + 60000, u⟩) := by
  refine ⟨rfl, ?_, ?_⟩
  · intro hnone
    exact length_mapSet_of_not_mem store (attemptKey u now) _ hnone
  · intro v hv
    exact ⟨length_mapSet_of_mem store (attemptKey u now) _ v hv,
           mapGet_mapSet_self store (attemptKey u now) _⟩

/-- Witness for C8 (amended): issuing over an existing `"alice_5"` entry
keeps the registry at one entry and replaces the stored code. -/
theorem issue_growth_amended_witness :
    (issue [("alice_5", (⟨"1111", 60005, "alice"⟩ : OTPRecord))]
        "alice" "2222" 5).length =
      ([("alice_5", (⟨"1111", 60005, "alice"⟩ : OTPRecord))] : Registry).length ∧
    mapGet (issue [("alice_5", (⟨"1111", 60005, "alice"⟩ : OTPRecord))]
        "alice" "2222" 5) (attemptKey "alice" 5) =
      some ⟨"2222", 60005, "alice"⟩ :=
  (issue_growth_amended [("alice_5", ⟨"1111", 60005, "alice"⟩)]
      "alice" "2222" 5).2.2 ⟨"1111", 60005, "alice"⟩ (by decide)

/-- C10: logout destroys the whole session from any phase — the next request
observes an anonymous session — and leaves the OTP registry untouched: every
key still maps to exactly what it mapped to before. -/
theorem logout_frame (sess : Session) (store : Registry) :
    (logout sess store).1 = Session.destroyed ∧
    (logout sess store).1.phase = Phase.anonymous ∧
    (logout sess store).2 = store ∧
    ∀ k, mapGet (logout sess store).2 k = mapGet store k :=
  ⟨rfl, rfl, rfl, fun _ => rfl⟩

end TwoFA
